import Mathlib

/-!
Verification of the password classification-and-override engine of
`src/app.py` (`predict_password_strength`), against its specification.

The engine depends on external capabilities: a vectorizer
(`vectorizer.transform`), a classifier (`clf.predict`, `clf.predict_proba`),
and the execution environment's character classification (`str.islower`,
`str.isupper`, `str.isdigit`, `str.isalnum`).  These are modelled as the
fields of a `Model` structure, so every theorem quantifies over all
possible behaviours of the external components.  Numeric values are
modelled as rationals (ℚ).
-/

/-- The external capabilities consumed by `predict_password_strength`:
the environment's per-character Unicode classification predicates, the
vectorizer, and the classifier. -/
structure Model where
  isLower : Char → Bool
  isUpper : Char → Bool
  isDigit : Char → Bool
  isAlnum : Char → Bool
  transform : String → List ℚ
  predict : List ℚ → ℕ
  predictProba : List ℚ → List ℚ

/-- `sum(1 for c in password if p(c))`: the number of characters of
`password` satisfying `p`. -/
def countP (p : Char → Bool) (password : String) : ℕ :=
  (password.data.filter p).length

/-- The combined feature vector of src/app.py lines 39-49: the
vectorizer's output followed by the four auxiliary scalars
`(length_pass, length_normalised_lowercase, length_normalised_uppercase,
length_normalised_digit)`, each fraction being `count / length_pass`. -/
def features (M : Model) (password : String) : List ℚ :=
  M.transform password ++
    [(password.length : ℚ),
     (countP M.isLower password : ℚ) / (password.length : ℚ),
     (countP M.isUpper password : ℚ) / (password.length : ℚ),
     (countP M.isDigit password : ℚ) / (password.length : ℚ)]

/-- `char_types` of src/app.py lines 54-58: how many of the four
character classes (lower, upper, digit, special = non-alphanumeric)
occur in the password. -/
def char_types (M : Model) (password : String) : ℕ :=
  (if password.data.any M.isLower then 1 else 0) +
  (if password.data.any M.isUpper then 1 else 0) +
  (if password.data.any M.isDigit then 1 else 0) +
  (if password.data.any (fun c => !(M.isAlnum c)) then 1 else 0)

/-- `predict_password_strength` of src/app.py lines 25-89.  Returns
`(result, probabilities, reason)`.  The elif chain evaluates each rule's
condition only when all earlier conditions failed, and `result` is only
reassigned inside a taken branch, so every condition reads the raw
classifier output; the chain is therefore a first-match-wins cascade
over the raw label. -/
def predict_password_strength (M : Model) (password : String) :
    ℕ × List ℚ × String :=
  if password.length = 0 then
    (0, [1, 0, 0], "Empty password")
  else if password.length ≤ 6 then
    (0, M.predictProba (features M password), "Too short (≤6 characters)")
  else if password.length ≤ 12 ∧ M.predict (features M password) = 2 then
    (1, M.predictProba (features M password), "Too short to be strong (≤12 chars)")
  else if 18 ≤ password.length ∧ 3 ≤ char_types M password then
    (2, M.predictProba (features M password),
      "Long password (" ++ toString password.length ++
        " chars) with good diversity (" ++ toString (char_types M password) ++
        "/4 types)")
  else if 30 ≤ password.length then
    (2, M.predictProba (features M password), "Very long password (≥30 chars)")
  else if 15 ≤ password.length ∧ M.predict (features M password) = 0 then
    (1, M.predictProba (features M password), "Too long to be weak (≥15 chars)")
  else
    (M.predict (features M password), M.predictProba (features M password),
      "Model prediction")

/-- ASCII lowercase test, matching Python's `str.islower` on ASCII input. -/
def asciiLower (c : Char) : Bool := 'a' ≤ c && c ≤ 'z'

/-- ASCII uppercase test, matching Python's `str.isupper` on ASCII input. -/
def asciiUpper (c : Char) : Bool := 'A' ≤ c && c ≤ 'Z'

/-- ASCII digit test, matching Python's `str.isdigit` on ASCII input. -/
def asciiDigit (c : Char) : Bool := '0' ≤ c && c ≤ '9'

/-- ASCII alphanumeric test, matching Python's `str.isalnum` on ASCII input. -/
def asciiAlnum (c : Char) : Bool := asciiLower c || asciiUpper c || asciiDigit c

/-- A concrete environment whose classifier always predicts the fixed
raw label `raw` with a fixed distribution; used to exercise the rule
chain at concrete inputs. -/
def stubModel (raw : ℕ) : Model :=
  { isLower := asciiLower
    isUpper := asciiUpper
    isDigit := asciiDigit
    isAlnum := asciiAlnum
    transform := fun _ => []
    predict := fun _ => raw
    predictProba := fun _ =>
      if raw = 0 then [1, 0, 0] else if raw = 1 then [0, 1, 0] else [0, 0, 1] }

/-- C2: for every password with length >= 30, classify returns the label
Strong (2), regardless of the classifier's raw label and regardless of the
password's character-class diversity. -/
theorem C2_very_long_forced_strong (M : Model) (pw : String)
    (h30 : 30 ≤ pw.length) :
    (predict_password_strength M pw).1 = 2 := by
  unfold predict_password_strength
  split_ifs with h0 h6 h12 h18 <;> first | rfl | omega

/-- C2 witness: a 31-character all-lowercase password under a stub
classifier that rates everything Weak is still classified Strong. -/
theorem C2_very_long_forced_strong_witness :
    30 ≤ ("aaaaaaaaaaaaaaaaaaaaaaaaaaaaaaa" : String).length ∧
    (predict_password_strength (stubModel 0) "aaaaaaaaaaaaaaaaaaaaaaaaaaaaaaa").1 = 2 :=
  ⟨by decide,
   C2_very_long_forced_strong (stubModel 0) "aaaaaaaaaaaaaaaaaaaaaaaaaaaaaaa" (by decide)⟩

/-- C4: for every password with 1 <= length <= 6, classify returns the
label Weak (0) with reason "Too short (≤6 characters)", regardless of the
classifier's raw label. -/
theorem C4_short_forced_weak (M : Model) (pw : String)
    (h1 : 1 ≤ pw.length) (h6 : pw.length ≤ 6) :
    (predict_password_strength M pw).1 = 0 ∧
    (predict_password_strength M pw).2.2 = "Too short (≤6 characters)" := by
  unfold predict_password_strength
  rw [if_neg (by omega), if_pos h6]
  exact ⟨rfl, rfl⟩

/-- C4 witness: "abc123" (length 6) under a stub classifier that rates
everything Strong is still classified Weak with the rule-1 reason. -/
theorem C4_short_forced_weak_witness :
    (1 ≤ ("abc123" : String).length ∧ ("abc123" : String).length ≤ 6) ∧
    (predict_password_strength (stubModel 2) "abc123").1 = 0 ∧
    (predict_password_strength (stubModel 2) "abc123").2.2 = "Too short (≤6 characters)" :=
  ⟨by decide, C4_short_forced_weak (stubModel 2) "abc123" (by decide) (by decide)⟩

/-- C9: for every password with length exactly 13 or 14, no override rule
fires: classify returns the classifier's raw label unchanged, with the raw
probability distribution and reason "Model prediction". -/
theorem C9_gap_lengths_raw_label_stands (M : Model) (pw : String)
    (h : pw.length = 13 ∨ pw.length = 14) :
    predict_password_strength M pw =
      (M.predict (features M pw), M.predictProba (features M pw),
        "Model prediction") := by
  unfold predict_password_strength
  split_ifs with h0 h6 h12 h18 h30 h15 <;> first | rfl | omega

/-- C9 witness: a 13-character password under a stub classifier that
rates everything Strong keeps the raw Strong label and the
"Model prediction" reason. -/
theorem C9_gap_lengths_raw_label_stands_witness :
    (("aaaaaaaaaaaaa" : String).length = 13 ∨
      ("aaaaaaaaaaaaa" : String).length = 14) ∧
    predict_password_strength (stubModel 2) "aaaaaaaaaaaaa" =
      ((stubModel 2).predict (features (stubModel 2) "aaaaaaaaaaaaa"),
       (stubModel 2).predictProba (features (stubModel 2) "aaaaaaaaaaaaa"),
       "Model prediction") :=
  ⟨by decide,
   C9_gap_lengths_raw_label_stands (stubModel 2) "aaaaaaaaaaaaa" (by decide)⟩

/-- C10: for every password with length >= 13 whose raw label is
Strong (2), classify returns the label Strong (2): no rule demotes a
Strong raw label once the length exceeds 12. -/
theorem C10_long_strong_never_demoted (M : Model) (pw : String)
    (h13 : 13 ≤ pw.length) (hraw : M.predict (features M pw) = 2) :
    (predict_password_strength M pw).1 = 2 := by
  unfold predict_password_strength
  split_ifs with h0 h6 h12 h18 h30 h15 <;> first | rfl | exact hraw | omega

/-- C10 witness: a 16-character password whose stub raw label is Strong
is still classified Strong. -/
theorem C10_long_strong_never_demoted_witness :
    (13 ≤ ("aaaaaaaaaaaaaaaa" : String).length ∧
      (stubModel 2).predict (features (stubModel 2) "aaaaaaaaaaaaaaaa") = 2) ∧
    (predict_password_strength (stubModel 2) "aaaaaaaaaaaaaaaa").1 = 2 :=
  ⟨⟨by decide, rfl⟩,
   C10_long_strong_never_demoted (stubModel 2) "aaaaaaaaaaaaaaaa" (by decide) rfl⟩

/-- C5: for every password with 7 <= length <= 12, the label is never
Strong (2): a raw Strong label is replaced by Normal (1) with reason
"Too short to be strong (≤12 chars)", and a raw Weak or Normal label
stands. -/
theorem C5_medium_short_never_strong (M : Model) (pw : String)
    (h7 : 7 ≤ pw.length) (h12 : pw.length ≤ 12) :
    (predict_password_strength M pw).1 ≠ 2 ∧
    (M.predict (features M pw) = 2 →
      (predict_password_strength M pw).1 = 1 ∧
      (predict_password_strength M pw).2.2 = "Too short to be strong (≤12 chars)") ∧
    (M.predict (features M pw) ≠ 2 →
      (predict_password_strength M pw).1 = M.predict (features M pw)) := by
  unfold predict_password_strength
  split_ifs with h0 h6 h2 h18 h30 h15 <;>
    refine ⟨?_, fun hs => ⟨?_, ?_⟩, fun hns => ?_⟩ <;> first | rfl | omega

/-- C5 witness: "Password123!" (length 12) under a stub classifier that
rates everything Strong is demoted to Normal with the rule-2 reason. -/
theorem C5_medium_short_never_strong_witness :
    (7 ≤ ("Password123!" : String).length ∧
      ("Password123!" : String).length ≤ 12) ∧
    (predict_password_strength (stubModel 2) "Password123!").1 ≠ 2 ∧
    ((stubModel 2).predict (features (stubModel 2) "Password123!") = 2 →
      (predict_password_strength (stubModel 2) "Password123!").1 = 1 ∧
      (predict_password_strength (stubModel 2) "Password123!").2.2 =
        "Too short to be strong (≤12 chars)") ∧
    ((stubModel 2).predict (features (stubModel 2) "Password123!") ≠ 2 →
      (predict_password_strength (stubModel 2) "Password123!").1 =
        (stubModel 2).predict (features (stubModel 2) "Password123!")) :=
  ⟨by decide,
   C5_medium_short_never_strong (stubModel 2) "Password123!" (by decide) (by decide)⟩

/-- C3: for the empty password, classify returns exactly
`(0, [1, 0, 0], "Empty password")`, and the result is independent of the
vectorizer and classifier capabilities (they are never invoked). -/
theorem C3_empty_short_circuit (M M' : Model) (pw : String)
    (h : pw.length = 0) :
    predict_password_strength M pw = (0, [1, 0, 0], "Empty password") ∧
    predict_password_strength M pw = predict_password_strength M' pw := by
  unfold predict_password_strength
  rw [if_pos h, if_pos h]
  exact ⟨rfl, rfl⟩

/-- C3 witness: the empty password yields the fixed triple under two
stub environments with different classifiers, and both agree. -/
theorem C3_empty_short_circuit_witness :
    ("" : String).length = 0 ∧
    predict_password_strength (stubModel 0) "" = (0, [1, 0, 0], "Empty password") ∧
    predict_password_strength (stubModel 0) "" =
      predict_password_strength (stubModel 2) "" :=
  ⟨by decide, C3_empty_short_circuit (stubModel 0) (stubModel 2) "" (by decide)⟩

/-- C7: for every non-empty password, the probabilities component of the
result is exactly the classifier's `predict_proba` output on the feature
vector, unmodified, in every branch of the rule chain. -/
theorem C7_probabilities_unmodified (M : Model) (pw : String)
    (h : pw.length ≠ 0) :
    (predict_password_strength M pw).2.1 = M.predictProba (features M pw) := by
  unfold predict_password_strength
  split_ifs with h0 h6 h2 h18 h30 h15 <;> first | rfl | exact absurd h0 h

/-- C7 witness: a 31-character all-lowercase password whose label is
overridden to Strong still carries the stub classifier's Weak-favouring
distribution. -/
theorem C7_probabilities_unmodified_witness :
    ("aaaaaaaaaaaaaaaaaaaaaaaaaaaaaaa" : String).length ≠ 0 ∧
    (predict_password_strength (stubModel 0) "aaaaaaaaaaaaaaaaaaaaaaaaaaaaaaa").2.1 =
      (stubModel 0).predictProba (features (stubModel 0) "aaaaaaaaaaaaaaaaaaaaaaaaaaaaaaa") :=
  ⟨by decide,
   C7_probabilities_unmodified (stubModel 0) "aaaaaaaaaaaaaaaaaaaaaaaaaaaaaaa" (by decide)⟩

/-- C6: for every password with length >= 18 and at least 3 of the 4
character classes present, classify returns the label Strong (2),
regardless of the raw label, with a reason containing the password's
length and the `char_types` count. -/
theorem C6_long_diverse_forced_strong (M : Model) (pw : String)
    (hlen : 18 ≤ pw.length) (hct : 3 ≤ char_types M pw) :
    (predict_password_strength M pw).1 = 2 ∧
    (predict_password_strength M pw).2.2 =
      "Long password (" ++ toString pw.length ++
        " chars) with good diversity (" ++ toString (char_types M pw) ++
        "/4 types)" ∧
    (toString pw.length).data <:+: ((predict_password_strength M pw).2.2).data ∧
    (toString (char_types M pw)).data <:+:
      ((predict_password_strength M pw).2.2).data := by
  have hres : (predict_password_strength M pw).2.2 =
      "Long password (" ++ toString pw.length ++
        " chars) with good diversity (" ++ toString (char_types M pw) ++
        "/4 types)" := by
    unfold predict_password_strength
    split_ifs with h0 h6 h2 h3 <;> first | rfl | omega
  have hlab : (predict_password_strength M pw).1 = 2 := by
    unfold predict_password_strength
    split_ifs with h0 h6 h2 h3 <;> first | rfl | omega
  refine ⟨hlab, hres, ?_, ?_⟩
  · rw [hres]
    refine ⟨("Long password (" : String).data,
      (" chars) with good diversity (" ++ toString (char_types M pw) ++
        "/4 types)" : String).data, ?_⟩
    simp [String.data_append]
  · rw [hres]
    refine ⟨("Long password (" ++ toString pw.length ++
      " chars) with good diversity (" : String).data,
      ("/4 types)" : String).data, ?_⟩
    simp [String.data_append]

/-- C6 witness: "TheQuixy#234522wish" (length 19, all four character
classes) under a stub classifier that rates everything Weak is forced to
Strong with a reason naming 19 and the diversity count. -/
theorem C6_long_diverse_forced_strong_witness :
    (18 ≤ ("TheQuixy#234522wish" : String).length ∧
      3 ≤ char_types (stubModel 0) "TheQuixy#234522wish") ∧
    (predict_password_strength (stubModel 0) "TheQuixy#234522wish").1 = 2 ∧
    (predict_password_strength (stubModel 0) "TheQuixy#234522wish").2.2 =
      "Long password (" ++ toString ("TheQuixy#234522wish" : String).length ++
        " chars) with good diversity (" ++
        toString (char_types (stubModel 0) "TheQuixy#234522wish") ++
        "/4 types)" ∧
    (toString ("TheQuixy#234522wish" : String).length).data <:+:
      ((predict_password_strength (stubModel 0) "TheQuixy#234522wish").2.2).data ∧
    (toString (char_types (stubModel 0) "TheQuixy#234522wish")).data <:+:
      ((predict_password_strength (stubModel 0) "TheQuixy#234522wish").2.2).data :=
  ⟨⟨by decide, by decide⟩,
   C6_long_diverse_forced_strong (stubModel 0) "TheQuixy#234522wish"
     (by decide) (by decide)⟩

/-- The feature vector as §4.1 of the spec words it: compute the three
character-class fractions as `count(predicate) / length`, call the
vectorizer, then append the four scalars
`(length, lower_frac, upper_frac, digit_frac)` in that fixed order. -/
def featuresSpec (M : Model) (password : String) : List ℚ :=
  let length : ℚ := password.length
  let lower_frac : ℚ := (countP M.isLower password : ℚ) / length
  let upper_frac : ℚ := (countP M.isUpper password : ℚ) / length
  let digit_frac : ℚ := (countP M.isDigit password : ℚ) / length
  M.transform password ++ [length, lower_frac, upper_frac, digit_frac]

/-- C8: for every non-empty password, the feature vector passed to the
classifier is the vectorizer's output followed by exactly the four
auxiliary scalars (length, lowercase fraction, uppercase fraction, digit
fraction) in that order, each fraction being count / length; and
classify's probabilities come from `predict_proba` on that vector. -/
theorem C8_feature_vector_layout (M : Model) (pw : String)
    (h : pw.length ≠ 0) :
    features M pw = featuresSpec M pw ∧
    (predict_password_strength M pw).2.1 = M.predictProba (featuresSpec M pw) := by
  constructor
  · rfl
  · unfold predict_password_strength
    split_ifs with h0 h6 h2 h3 h30 h15 <;> first | rfl | exact absurd h0 h

/-- C8 witness: the layout holds at a concrete password and stub
environment. -/
theorem C8_feature_vector_layout_witness :
    ("abc123x" : String).length ≠ 0 ∧
    features (stubModel 1) "abc123x" = featuresSpec (stubModel 1) "abc123x" ∧
    (predict_password_strength (stubModel 1) "abc123x").2.1 =
      (stubModel 1).predictProba (featuresSpec (stubModel 1) "abc123x") :=
  ⟨by decide, C8_feature_vector_layout (stubModel 1) "abc123x" (by decide)⟩

/-- C1 counterexample: a 30-character all-lowercase password whose raw
label is Weak is NOT given the label Normal (1): rule 4 (len >= 30)
outranks rule 5 (len >= 15 and raw Weak) and forces Strong (2).  The
hypotheses of the claim hold at this input, and its conclusion fails. -/
theorem C1_long_weak_counterexample :
    (("aaaaaaaaaaaaaaaaaaaaaaaaaaaaaa" : String).length ≠ 0 ∧
     15 ≤ ("aaaaaaaaaaaaaaaaaaaaaaaaaaaaaa" : String).length ∧
     (stubModel 0).predict
       (features (stubModel 0) "aaaaaaaaaaaaaaaaaaaaaaaaaaaaaa") = 0) ∧
    (predict_password_strength (stubModel 0) "aaaaaaaaaaaaaaaaaaaaaaaaaaaaaa").1 ≠ 1 ∧
    (predict_password_strength (stubModel 0) "aaaaaaaaaaaaaaaaaaaaaaaaaaaaaa").1 = 2 := by
  refine ⟨⟨by decide, by decide, rfl⟩, ?_, ?_⟩ <;> decide

/-- C1 amended: for every non-empty password with length >= 15 whose raw
label is Weak (0), and to which neither of the earlier Strong overrides
applies (not (length >= 18 with char_types >= 3), and length < 30),
classify returns the label Normal (1), with reason
"Too long to be weak (≥15 chars)". -/
theorem C1_long_weak_promoted_to_normal (M : Model) (pw : String)
    (h15 : 15 ≤ pw.length)
    (hraw : M.predict (features M pw) = 0)
    (hnot3 : ¬ (18 ≤ pw.length ∧ 3 ≤ char_types M pw))
    (hnot4 : pw.length < 30) :
    (predict_password_strength M pw).1 = 1 ∧
    (predict_password_strength M pw).2.2 = "Too long to be weak (≥15 chars)" := by
  unfold predict_password_strength
  split_ifs with h0 h6 h2 h3 h30 <;> first | exact ⟨rfl, rfl⟩ | omega

/-- C1 amended witness: a 15-character all-lowercase password whose stub
raw label is Weak is promoted to Normal with the rule-5 reason. -/
theorem C1_long_weak_promoted_to_normal_witness :
    (15 ≤ ("aaaaaaaaaaaaaaa" : String).length ∧
     (stubModel 0).predict (features (stubModel 0) "aaaaaaaaaaaaaaa") = 0 ∧
     ¬ (18 ≤ ("aaaaaaaaaaaaaaa" : String).length ∧
        3 ≤ char_types (stubModel 0) "aaaaaaaaaaaaaaa") ∧
     ("aaaaaaaaaaaaaaa" : String).length < 30) ∧
    (predict_password_strength (stubModel 0) "aaaaaaaaaaaaaaa").1 = 1 ∧
    (predict_password_strength (stubModel 0) "aaaaaaaaaaaaaaa").2.2 =
      "Too long to be weak (≥15 chars)" :=
  ⟨⟨by decide, rfl, by decide, by decide⟩,
   C1_long_weak_promoted_to_normal (stubModel 0) "aaaaaaaaaaaaaaa"
     (by decide) rfl (by decide) (by decide)⟩
